import Mathlib

/-!
Verification of the campaign execution engine of the cold-email automation
repository (`utils/email_sender.py`, `utils/gemini_ai.py`, `utils/gmail_auth.py`).

The development shallowly embeds the code that the claims are about:

* Python's `str.replace` (used for placeholder substitution) as `pyReplace`;
* `EmailSender.validate_company_data` over a small pandas `DataFrame` model;
* `EmailSender.send_email` over an abstract Gmail transport;
* the per-recipient composition logic of `EmailSender.run_campaign`
  (`compose_body` / `compose_subject`), `GeminiAI.personalize_email` and
  `GeminiAI._get_fallback_content`;
* the campaign loop of `EmailSender.run_campaign` as a trace of emitted
  `CampaignResult`s and rate-limiting sleeps; and
* `EmailSender.get_campaign_summary`.

Streamlit UI calls (`st.progress`, `st.info`, ...) are display-only and are
dropped; `st.session_state` is modelled by an explicit `SessionState` value.
-/

set_option maxRecDepth 4000

/-- `matchesFront p s` is true when the char list `p` stands at the front of
`s` — the test CPython's `str.replace` performs at every scan position. -/
def matchesFront : List Char → List Char → Bool
  | [], _ => true
  | _ :: _, [] => false
  | c :: cs, d :: ds => c == d && matchesFront cs ds

/-- One scan of CPython's `str.replace`, with explicit fuel so that the
recursion is structural: at a position where the pattern `p` matches, emit
`r` and resume after the matched text (matches are found left to right and
do not overlap; replaced text is not rescanned); otherwise keep the
character.  Each step consumes at least one character and one unit of fuel,
so fuel `s.length` always suffices; the `0, s` branch is unreachable then. -/
def replaceSteps (p r : List Char) : Nat → List Char → List Char
  | _, [] => []
  | 0, s => s
  | n + 1, c :: cs =>
    if matchesFront p (c :: cs) && !p.isEmpty then
      r ++ replaceSteps p r n (cs.drop (p.length - 1))
    else
      c :: replaceSteps p r n cs

/-- CPython's `str.replace(p, r)` on char lists (for nonempty patterns, the
only way the sources call it). -/
def replaceAll (p r s : List Char) : List Char :=
  replaceSteps p r s.length s

/-- Python `s.replace(old, new)` on Lean strings. -/
def pyReplace (s old new : String) : String :=
  ⟨replaceAll old.data new.data s.data⟩

/-- Python `s.strip()`: whitespace removed from both ends. -/
def pyStrip (s : String) : String :=
  ⟨((s.data.dropWhile Char.isWhitespace).reverse.dropWhile Char.isWhitespace).reverse⟩

-- Parity anchors with CPython (`"aab".replace("ab", "b") == "ab"`, and the
-- recombination `"[Compa[COMPANY]me]".replace("[COMPANY]", "ny Na")`).
example : pyReplace "aab" "ab" "b" = "ab" := by decide
example : pyReplace "[Compa[COMPANY]me]" "[COMPANY]" "ny Na" = "[Company Name]" := by decide
example : pyReplace "xAyAz" "A" "B" = "xByBz" := by decide

/-! ### The recognized placeholder tokens

`run_campaign` and `_get_fallback_content` replace the four tokens
`[Company Name]`, `[Recruiter Name]`, `[COMPANY]`, `[RECRUITER]` in email
bodies; the subject branches of `run_campaign` replace only the first two. -/

inductive Tok where
  | companyName
  | recruiterName
  | companyCaps
  | recruiterCaps
  deriving DecidableEq, Repr

def Tok.text : Tok → String
  | .companyName => "[Company Name]"
  | .recruiterName => "[Recruiter Name]"
  | .companyCaps => "[COMPANY]"
  | .recruiterCaps => "[RECRUITER]"

/-- Templates presented as a concatenation of placeholder tokens and literal
text (used to quantify over template shapes in the substitution theorems). -/
inductive Seg where
  | lit (s : String)
  | tok (t : Tok)
  deriving DecidableEq, Repr

def renderSegs : List Seg → String
  | [] => ""
  | .lit s :: rest => s ++ renderSegs rest
  | .tok t :: rest => t.text ++ renderSegs rest

/-- The effect of one `str.replace` pass for token `tp` on a segment: the
token becomes the literal replacement text, everything else is unchanged. -/
def substTokSeg (tp : Tok) (rep : String) : Seg → Seg
  | .tok t => if t = tp then .lit rep else .tok t
  | .lit s => .lit s

/-- All literal segments are free of the `[` character (so every `[` of the
rendered template starts a placeholder token). -/
def litsBracketFree (segs : List Seg) : Prop :=
  ∀ s, Seg.lit s ∈ segs → '[' ∉ s.data

/-! ### Placeholder substitution (`utils/email_sender.py`)

`run_campaign` applies the same four `str.replace` calls in three places
(the edited-preview branch, the manual-template branch) and
`_get_fallback_content` repeats them; this helper is that shared block. -/

/-- The four-replace block of `run_campaign` / `_get_fallback_content`:
`text.replace("[Company Name]", company).replace("[Recruiter Name]",
recruiter).replace("[COMPANY]", company).replace("[RECRUITER]", recruiter)`. -/
def replace_placeholders (text company_name recruiter_name : String) : String :=
  pyReplace (pyReplace (pyReplace (pyReplace text
    "[Company Name]" company_name)
    "[Recruiter Name]" recruiter_name)
    "[COMPANY]" company_name)
    "[RECRUITER]" recruiter_name

/-! ### The AI collaborator (`utils/gemini_ai.py`) -/

/-- `GeminiAI`, with the external Gemini behaviour abstracted: `hasModel` is
whether `_setup_client` obtained a model (`self.model` non-None);
`generate company recruiter` is the outcome of
`self.model.generate_content(prompt)` for the personalization prompt built
for that recipient — `.error e` models a raised exception, `.ok none` a falsy
response or missing text, `.ok (some t)` a response carrying text `t`
(prompt construction, `get_company_info` and the rate-limit sleep are total:
they catch their own failures); `extract_resume_content` is the total
resume-text extraction (it catches its own exceptions). -/
structure GeminiAI where
  hasModel : Bool
  generate : String → String → Except String (Option String)
  extract_resume_content : String → String

/-- `GeminiAI._get_fallback_content`: plain template replacement used when the
AI is unavailable or fails, followed by the source's extra normalization
`fallback_content.replace('\n\n\n', '\n\n')`. -/
def get_fallback_content (company_name recruiter_name base_template : String) : String :=
  pyReplace (replace_placeholders base_template company_name recruiter_name) "\n\n\n" "\n\n"

/-- `GeminiAI.personalize_email`: if no model is configured, fall back; inside
the `try`, a raised exception or a falsy response/text falls back; a
nonempty response text is returned stripped. -/
def personalize_email (g : GeminiAI) (company_name recruiter_name base_template resume_summary : String) : String :=
  if !g.hasModel then
    get_fallback_content company_name recruiter_name base_template
  else
    match g.generate company_name recruiter_name with
    | .error _ => get_fallback_content company_name recruiter_name base_template
    | .ok none => get_fallback_content company_name recruiter_name base_template
    | .ok (some text) =>
      if text ≠ "" then pyStrip text
      else get_fallback_content company_name recruiter_name base_template

/-! ### Session state and composition (`EmailSender.run_campaign`) -/

def AI_MODE : String := "🤖 AI-Powered Personalization"

/-- The `st.session_state` keys `run_campaign` reads: each is `some v` when
the key is present. -/
structure SessionState where
  personalization_mode : Option String
  preview_email_content : Option String
  preview_email_subject : Option String
  resume_file : Option String

/-- The body computation of one `run_campaign` iteration: in AI mode an
edited preview (if saved) is the base text for placeholder replacement,
otherwise `personalize_email` runs on the template (with the resume summary
extracted when a resume is in the session); in manual mode the template gets
plain placeholder replacement. -/
def compose_body (ss : SessionState) (g : GeminiAI) (email_template company_name recruiter_name : String) : String :=
  if ss.personalization_mode.getD AI_MODE = AI_MODE then
    match ss.preview_email_content with
    | some preview => replace_placeholders preview company_name recruiter_name
    | none =>
      let resume_summary :=
        match ss.resume_file with
        | some f => g.extract_resume_content f
        | none => ""
      personalize_email g company_name recruiter_name email_template resume_summary
  else
    replace_placeholders email_template company_name recruiter_name

/-- The subject computation of one `run_campaign` iteration: the edited
preview subject (if saved) or else the subject template, with only
`[Company Name]` and `[Recruiter Name]` replaced. -/
def compose_subject (ss : SessionState) (subject_template company_name recruiter_name : String) : String :=
  match ss.preview_email_subject with
  | some preview =>
    pyReplace (pyReplace preview "[Company Name]" company_name) "[Recruiter Name]" recruiter_name
  | none =>
    pyReplace (pyReplace subject_template "[Company Name]" company_name) "[Recruiter Name]" recruiter_name

/-! ### The Gmail transport (`utils/gmail_auth.py`, `EmailSender.send_email`) -/

/-- An authenticated Gmail service handle: `sendRaw` is
`service.users().messages().send(...).execute()` — `.ok id` a sent message's
id, `.error e` a raised exception. -/
structure GmailService where
  sendRaw : String → Except String String

/-- `GmailAuthenticator`, reduced to what `send_email` consumes: `service` is
the result of `get_service()` (`none` when authentication is unavailable). -/
structure GmailAuthenticator where
  service : Option GmailService

/-- `EmailSender.create_email_message`, with MIME assembly, HTML conversion
and base64 encoding abstracted into an opaque-but-total packaging of the
three inputs (attachments are display-relevant only for the claims). -/
def create_email_message (to_email subject body : String) : String :=
  to_email ++ "\u001f" ++ subject ++ "\u001f" ++ body

/-- `EmailSender.send_email`: no service handle means
`(False, "Gmail service not available")` with no send attempted; a raised
send exception is caught and becomes `(False, "Failed to send email: ...")`;
otherwise `(True, "Email sent successfully (ID: ...)")`. -/
def send_email (auth : GmailAuthenticator) (to_email subject body : String) : Bool × String :=
  match auth.service with
  | none => (false, "Gmail service not available")
  | some service =>
    match service.sendRaw (create_email_message to_email subject body) with
    | .error e => (false, "Failed to send email: " ++ e)
    | .ok messageId => (true, "Email sent successfully (ID: " ++ messageId ++ ")")

/-! ### The campaign loop (`EmailSender.run_campaign`) -/

/-- One row of the company dataframe, as the key/value pairs `run_campaign`
reads with `row['...']` and `row.get('...', 'Unknown')`. -/
abbrev Row := List (String × String)

/-- `row[key]`: a missing key raises `KeyError(key)` (whose `str` is the
quoted key). -/
def rowGet (row : Row) (key : String) : Except String String :=
  match row.lookup key with
  | some v => Except.ok v
  | none => Except.error ("'" ++ key ++ "'")

/-- `row.get(key, fallback)`. -/
def rowGetD (row : Row) (key fallbackValue : String) : String :=
  (row.lookup key).getD fallbackValue

/-- One entry of `self.campaign_results` (the wall-clock timestamp field is
omitted). -/
structure CampaignResult where
  company : String
  recruiter : String
  email : String
  subject : String
  success : Bool
  message : String
  deriving DecidableEq, Repr

/-- Everything one `run_campaign` call closes over besides the dataframe. -/
structure RunCtx where
  session : SessionState
  gemini : GeminiAI
  auth : GmailAuthenticator
  email_template : String
  subject_template : String
  delay_seconds : Nat

/-- The body of the `try` block of one loop iteration of `run_campaign`, up
to and including the send: field accesses may raise (modelled by `.error`),
composition and the send are total. -/
def try_recipient (ctx : RunCtx) (row : Row) : Except String CampaignResult :=
  match rowGet row "Company Name" with
  | .error e => .error e
  | .ok company_name =>
    match rowGet row "Recruiter" with
    | .error e => .error e
    | .ok recruiter_name =>
      match rowGet row "Email" with
      | .error e => .error e
      | .ok email_address =>
        let personalized_body :=
          compose_body ctx.session ctx.gemini ctx.email_template company_name recruiter_name
        let personalized_subject :=
          compose_subject ctx.session ctx.subject_template company_name recruiter_name
        let sent := send_email ctx.auth email_address personalized_subject personalized_body
        .ok { company := company_name, recruiter := recruiter_name,
              email := email_address, subject := personalized_subject,
              success := sent.1, message := sent.2 }

/-- The `CampaignResult` one iteration appends: the successful record, or the
`except`-branch record built with `row.get(..., 'Unknown')` defaults and
message `"Campaign error: " + str(e)`. -/
def recipient_result (ctx : RunCtx) (row : Row) : CampaignResult :=
  match try_recipient ctx row with
  | .ok r => r
  | .error e =>
    { company := rowGetD row "Company Name" "Unknown",
      recruiter := rowGetD row "Recruiter" "Unknown",
      email := rowGetD row "Email" "Unknown",
      subject := "Error", success := false,
      message := "Campaign error: " ++ e }

/-- Observable steps of a campaign run: a result appended to
`self.campaign_results`, or a `time.sleep(delay_seconds)` pause. -/
inductive Event where
  | emit (r : CampaignResult)
  | sleep (seconds : Nat)
  deriving DecidableEq, Repr

/-- The observable events of one loop iteration of `run_campaign`: a
normally-concluded iteration emits its result and then — only if this is not
the last row — sleeps; an iteration whose `try` block raised emits the error
record and does not sleep (the sleep sits inside the `try`, after the point
of the raise). -/
def iteration_events (ctx : RunCtx) (total_emails index : Nat) (row : Row) : List Event :=
  match try_recipient ctx row with
  | .ok r =>
    Event.emit r ::
      (if index < total_emails - 1 then [Event.sleep ctx.delay_seconds] else [])
  | .error e =>
    [Event.emit
      { company := rowGetD row "Company Name" "Unknown",
        recruiter := rowGetD row "Recruiter" "Unknown",
        email := rowGetD row "Email" "Unknown",
        subject := "Error", success := false,
        message := "Campaign error: " ++ e }]

/-- The loop of `run_campaign` over the remaining rows, carrying the
positional index. -/
def run_loop (ctx : RunCtx) (total_emails : Nat) : Nat → List Row → List Event
  | _, [] => []
  | index, row :: rest =>
    iteration_events ctx total_emails index row
      ++ run_loop ctx total_emails (index + 1) rest

/-- `EmailSender.run_campaign` as its trace of appends and sleeps (the result
log resets to empty at the start of every run; `total_emails = len(company_data)`). -/
def run_campaign (ctx : RunCtx) (company_data : List Row) : List Event :=
  run_loop ctx company_data.length 0 company_data

/-- The result log a trace leaves in `self.campaign_results`. -/
def campaign_results (trace : List Event) : List CampaignResult :=
  trace.filterMap fun e =>
    match e with
    | .emit r => some r
    | .sleep _ => none

/-- How many rate-limiting pauses a trace performs. -/
def sleep_count (trace : List Event) : Nat :=
  trace.countP fun e =>
    match e with
    | .sleep _ => true
    | .emit _ => false

/-- The trace shape of an exception-free run: each result, with a sleep after
every result but the last. -/
def interleave_sleeps (d : Nat) : List CampaignResult → List Event
  | [] => []
  | [r] => [Event.emit r]
  | r :: rest => Event.emit r :: Event.sleep d :: interleave_sleeps d rest

/-- `CampaignSummary` values of `get_campaign_summary`. -/
structure CampaignSummary where
  total : Nat
  successful : Nat
  failed : Nat
  deriving DecidableEq, Repr

/-- `EmailSender.get_campaign_summary` over the result log. -/
def get_campaign_summary (results : List CampaignResult) : CampaignSummary :=
  if results.isEmpty then
    { total := 0, successful := 0, failed := 0 }
  else
    let total := results.length
    let successful := results.countP (·.success)
    { total := total, successful := successful, failed := total - successful }

/-! ### The dataset validator (`EmailSender.validate_company_data`)

The pandas dataframe is modelled as its column names plus the cells of each
column; a cell is a string, a non-string scalar, or a missing value. -/

inductive Cell where
  | str (s : String)
  | num (x : Int)
  | nan
  deriving DecidableEq, Repr

def Cell.isNa : Cell → Bool
  | .nan => true
  | _ => false

def Cell.isStr : Cell → Bool
  | .str _ => true
  | _ => false

structure DataFrame where
  columns : List String
  col : String → List Cell

/-- pandas gives a column a non-object (numeric) dtype when it is nonempty
and holds no string value at all; the `.str` accessor on such a Series
raises `AttributeError` instead of returning a Series. -/
def numericDtype (cells : List Cell) : Bool :=
  !cells.isEmpty && cells.all (fun c => !c.isStr)

def isLocalChar (c : Char) : Bool :=
  c.isAlpha || c.isDigit || c == '.' || c == '_' || c == '%' || c == '+' || c == '-'

def isDomainChar (c : Char) : Bool :=
  c.isAlpha || c.isDigit || c == '.' || c == '-'

/-- Whether `^[a-zA-Z0-9._%+-]+@[a-zA-Z0-9.-]+\.[a-zA-Z]{2,}$` matches a
whole char list.  The decomposition is forced: `@` belongs to no character
class, so the local part is everything before the only `@`; the top-level
domain is alphabetic, so its separating dot is the last `.` after the `@`. -/
def matchCore (cs : List Char) : Bool :=
  let localPart := cs.takeWhile (fun c => c != '@')
  match cs.dropWhile (fun c => c != '@') with
  | [] => false
  | _ :: afterAt =>
    let rev := afterAt.reverse
    let tldRev := rev.takeWhile (fun c => c != '.')
    match rev.dropWhile (fun c => c != '.') with
    | [] => false
    | _ :: domainRev =>
      !localPart.isEmpty && localPart.all isLocalChar
        && !domainRev.isEmpty && domainRev.all isDomainChar
        && decide (2 ≤ tldRev.length) && tldRev.all (fun c => c.isAlpha)

/-- `re.match` of the anchored email pattern: `$` matches at the end of the
string or just before one newline at its very end. -/
def matches_email (s : String) : Bool :=
  matchCore s.data ||
    (match s.data.getLast? with
     | some c => c == '\n' && matchCore s.data.dropLast
     | none => false)

example : matches_email "jane@acme.com" = true := by decide
example : matches_email "not-an-email" = false := by decide
example : matches_email "a@b.co\n" = true := by decide
example : matches_email "a@b.c" = false := by decide
example : matches_email "a@b-x.co" = true := by decide
example : matches_email "" = false := by decide

/-- `Series.str.match(pattern, na=False)` on one cell of an object-dtype
column: missing and non-string values become `NaN`, filled to `False`. -/
def cellMatchesEmail : Cell → Bool
  | .str s => matches_email s
  | _ => false

def requiredColumns : List String := ["Company Name", "Recruiter", "Email"]

/-- `[col for col in required_columns if col not in df.columns]`. -/
def missingColumns (df : DataFrame) : List String :=
  requiredColumns.filter (fun c => !df.columns.contains c)

/-- The (zero or one) error the missing-columns check appends. -/
def missingColumnErrors (df : DataFrame) : List String :=
  if !(missingColumns df).isEmpty then
    ["Missing required columns: " ++ String.intercalate ", " (missingColumns df)]
  else []

/-- The per-column errors of the empty-values loop: one error for each
required column that is present and has a `NaN` cell (note: pandas `isna` is
false on the empty string, so `""` cells do not count). -/
def emptyValueErrors (df : DataFrame) : List String :=
  (requiredColumns.filter
      (fun c => df.columns.contains c && (df.col c).any Cell.isNa)).map
    (fun c => "Column '" ++ c ++ "' contains empty values")

/-- `len(df[~df['Email'].str.match(pattern, na=False)])`. -/
def invalidEmailCount (df : DataFrame) : Nat :=
  (df.col "Email").countP (fun cl => !cellMatchesEmail cl)

/-- The (zero or one) error the email-format check appends. -/
def invalidEmailErrors (df : DataFrame) : List String :=
  if invalidEmailCount df != 0 then
    ["Invalid email addresses found: " ++ toString (invalidEmailCount df) ++ " rows"]
  else []

/-- `EmailSender.validate_company_data`, assembled from the three checks in
source order.  The `.error` branch models the `AttributeError` that
`df['Email'].str.match` raises when the Email column has a numeric dtype
(nonempty, no string cell); every other input yields
`(len(errors) == 0, errors)`. -/
def validate_company_data (df : DataFrame) : Except String (Bool × List String) :=
  if df.columns.contains "Email" then
    if numericDtype (df.col "Email") then
      .error "AttributeError: Can only use .str accessor with string values!"
    else
      let errors := missingColumnErrors df ++ emptyValueErrors df ++ invalidEmailErrors df
      .ok (errors.isEmpty, errors)
  else
    let errors := missingColumnErrors df ++ emptyValueErrors df
    .ok (errors.isEmpty, errors)

/-! ### Concrete fixtures (used by witness and counterexample theorems) -/

def sessionManual : SessionState :=
  { personalization_mode := some "✏️ Manual Template", preview_email_content := none,
    preview_email_subject := none, resume_file := none }

def sessionAIPreview : SessionState :=
  { personalization_mode := none,
    preview_email_content := some "Hello [Recruiter Name] of [COMPANY]",
    preview_email_subject := some "About [Company Name]", resume_file := none }

def sessionAINoPreview : SessionState :=
  { personalization_mode := none, preview_email_content := none,
    preview_email_subject := none, resume_file := none }

def geminiDown : GeminiAI :=
  { hasModel := true, generate := fun _ _ => .error "quota exceeded",
    extract_resume_content := fun _ => "" }

def geminiShort : GeminiAI :=
  { hasModel := true, generate := fun _ _ => .ok (some "x"),
    extract_resume_content := fun _ => "" }

def geminiFalsy : GeminiAI :=
  { hasModel := true, generate := fun _ _ => .ok none,
    extract_resume_content := fun _ => "" }

def geminiEmptyText : GeminiAI :=
  { hasModel := true, generate := fun _ _ => .ok (some ""),
    extract_resume_content := fun _ => "" }

def geminiOff : GeminiAI :=
  { hasModel := false, generate := fun _ _ => .ok none,
    extract_resume_content := fun _ => "" }

def svcReject : GmailService := { sendRaw := fun _ => .error "HttpError 403" }

def svcAccept : GmailService := { sendRaw := fun _ => .ok "msg-1" }

def authNone : GmailAuthenticator := { service := none }

def authReject : GmailAuthenticator := { service := some svcReject }

def authAccept : GmailAuthenticator := { service := some svcAccept }

def ctxManualReject : RunCtx :=
  { session := sessionManual, gemini := geminiOff, auth := authReject,
    email_template := "Hi [Recruiter Name] at [Company Name]",
    subject_template := "Role at [Company Name]", delay_seconds := 60 }

def ctxAIPreview : RunCtx :=
  { session := sessionAIPreview, gemini := geminiDown, auth := authAccept,
    email_template := "Hi [Recruiter Name] at [Company Name]",
    subject_template := "Role at [Company Name]", delay_seconds := 60 }

def rowAcme : Row :=
  [("Company Name", "Acme"), ("Recruiter", "Jane"), ("Email", "jane@acme.com")]

def rowBeta : Row :=
  [("Company Name", "Beta"), ("Recruiter", "Bob"), ("Email", "bob@beta.co")]

def rowNoCompany : Row := [("Recruiter", "Bob"), ("Email", "bob@x.co")]

def dfGood : DataFrame :=
  { columns := ["Company Name", "Recruiter", "Email"],
    col := fun c =>
      if c = "Company Name" then [Cell.str "Acme"]
      else if c = "Recruiter" then [Cell.str "Jane"]
      else if c = "Email" then [Cell.str "jane@acme.com"]
      else [] }

def dfNoEmail : DataFrame :=
  { columns := ["Company Name", "Recruiter"],
    col := fun _ => [Cell.str "x"] }

def dfEmptyCell : DataFrame :=
  { columns := ["Company Name", "Recruiter", "Email"],
    col := fun c =>
      if c = "Company Name" then [Cell.str ""]
      else if c = "Recruiter" then [Cell.str "R"]
      else if c = "Email" then [Cell.str "a@b.co"]
      else [] }

def dfNanCell : DataFrame :=
  { columns := ["Company Name", "Recruiter", "Email"],
    col := fun c =>
      if c = "Company Name" then [Cell.nan]
      else if c = "Recruiter" then [Cell.str "R"]
      else if c = "Email" then [Cell.str "a@b.co"]
      else [] }

def dfNumericEmail : DataFrame :=
  { columns := ["Company Name", "Recruiter", "Email"],
    col := fun c =>
      if c = "Company Name" then [Cell.str "Acme"]
      else if c = "Recruiter" then [Cell.str "Jane"]
      else if c = "Email" then [Cell.num 12345]
      else [] }

def dfEmptyRows : DataFrame :=
  { columns := ["Company Name", "Recruiter", "Email"],
    col := fun _ => [] }

def segsBody : List Seg :=
  [Seg.lit "Hi ", Seg.tok Tok.recruiterName, Seg.lit " at ", Seg.tok Tok.companyName,
   Seg.lit " / ", Seg.tok Tok.companyCaps, Seg.tok Tok.recruiterCaps]

def segsSubject : List Seg := [Seg.lit "Role at ", Seg.tok Tok.companyName]

/-! ## Properties of the `str.replace` embedding -/

theorem replaceSteps_congr (p r : List Char) :
    ∀ (n m : Nat) (s : List Char), s.length ≤ n → s.length ≤ m →
      replaceSteps p r n s = replaceSteps p r m s := by
  intro n
  induction n with
  | zero =>
    intro m s hs _
    have hnil : s = [] := List.length_eq_zero.mp (Nat.le_zero.mp hs)
    subst hnil
    cases m <;> rfl
  | succ n ih =>
    intro m s hsn hsm
    cases s with
    | nil => cases m <;> rfl
    | cons c cs =>
      cases m with
      | zero => simp at hsm
      | succ m =>
        simp only [List.length_cons, Nat.succ_le_succ_iff] at hsn hsm
        simp only [replaceSteps]
        by_cases h : (matchesFront p (c :: cs) && !p.isEmpty) = true
        · rw [if_pos h, if_pos h]
          have hd : (cs.drop (p.length - 1)).length ≤ cs.length := by
            simp [List.length_drop]
          exact congrArg (r ++ ·) (ih m _ (le_trans hd hsn) (le_trans hd hsm))
        · rw [if_neg h, if_neg h]
          exact congrArg (c :: ·) (ih m cs hsn hsm)

@[simp] theorem replaceAll_nil (p r : List Char) : replaceAll p r [] = [] := rfl

theorem replaceAll_cons (p r : List Char) (c : Char) (cs : List Char) :
    replaceAll p r (c :: cs) =
      if matchesFront p (c :: cs) && !p.isEmpty then
        r ++ replaceAll p r (cs.drop (p.length - 1))
      else c :: replaceAll p r cs := by
  show replaceSteps p r ((c :: cs).length) (c :: cs) = _
  simp only [List.length_cons, replaceSteps]
  by_cases h : (matchesFront p (c :: cs) && !p.isEmpty) = true
  · rw [if_pos h, if_pos h]
    have hd : (cs.drop (p.length - 1)).length ≤ cs.length := by
      simp [List.length_drop]
    exact congrArg (r ++ ·) (replaceSteps_congr p r _ _ _ hd le_rfl)
  · rw [if_neg h, if_neg h]
    rfl

theorem matchesFront_self_append (p b : List Char) : matchesFront p (p ++ b) = true := by
  induction p with
  | nil => rfl
  | cons c cs ih => simp [matchesFront, ih]

theorem matchesFront_false_of_ne_at (i : Nat) :
    ∀ (p q : List Char), i < p.length → i < q.length → p[i]? ≠ q[i]? →
      ∀ b, matchesFront p (q ++ b) = false := by
  induction i with
  | zero =>
    intro p q hp hq hne b
    cases p with
    | nil => simp at hp
    | cons c cs =>
      cases q with
      | nil => simp at hq
      | cons d ds =>
        have hcd : c ≠ d := by
          intro h
          exact hne (by simp [h])
        simp [matchesFront, hcd]
  | succ i ih =>
    intro p q hp hq hne b
    cases p with
    | nil => simp at hp
    | cons c cs =>
      cases q with
      | nil => simp at hq
      | cons d ds =>
        simp only [List.length_cons, Nat.succ_lt_succ_iff] at hp hq
        simp only [List.getElem?_cons_succ] at hne
        by_cases hcd : c = d
        · subst hcd
          simp [matchesFront, ih cs ds hp hq hne b]
        · simp [matchesFront, hcd]

/-- A pass slides over text that is free of the pattern's leading `[`. -/
theorem replaceAll_skip (p r : List Char) (hp : p.head? = some '[') :
    ∀ (a : List Char), '[' ∉ a → ∀ b, replaceAll p r (a ++ b) = a ++ replaceAll p r b := by
  intro a
  induction a with
  | nil => simp
  | cons c a ih =>
    intro hc b
    have hcne : ('[' : Char) ≠ c := by
      intro h
      exact hc (h ▸ List.mem_cons_self c a)
    have ha : '[' ∉ a := fun h => hc (List.mem_cons_of_mem c h)
    rw [List.cons_append, replaceAll_cons]
    have hm : matchesFront p (c :: (a ++ b)) = false := by
      cases p with
      | nil => simp at hp
      | cons x xs =>
        have hx : x = '[' := by simpa using hp
        subst hx
        simp [matchesFront, hcne]
    rw [hm]
    simp only [Bool.false_and, if_neg (by simp : ¬(false = true))]
    rw [ih ha b, List.cons_append]

/-- A pass fires on an occurrence of the pattern itself. -/
theorem replaceAll_hit (p r : List Char) (hp : p ≠ []) (b : List Char) :
    replaceAll p r (p ++ b) = r ++ replaceAll p r b := by
  cases p with
  | nil => exact absurd rfl hp
  | cons x xs =>
    rw [List.cons_append, replaceAll_cons]
    have hm : matchesFront (x :: xs) (x :: (xs ++ b)) = true := by
      have := matchesFront_self_append (x :: xs) b
      rwa [List.cons_append] at this
    rw [hm]
    have hcond : (true && !(x :: xs).isEmpty) = true := by simp
    rw [if_pos hcond]
    have hlen : (x :: xs).length - 1 = xs.length := by simp
    rw [hlen, List.drop_left]

/-! ## Token facts -/

theorem tok_head (t : Tok) : (Tok.text t).data.head? = some '[' := by
  cases t <;> rfl

theorem tok_ne_nil (t : Tok) : (Tok.text t).data ≠ [] := by
  cases t <;> decide

theorem tok_tail_bracket_free (t : Tok) : '[' ∉ (Tok.text t).data.tail := by
  cases t <;> decide

theorem tok_has_bracket (t : Tok) : '[' ∈ (Tok.text t).data := by
  cases t <;> decide

/-- Distinct tokens never match at each other's position: each ordered pair
of the four token texts differs at index 1 or 2. -/
theorem tok_matchesFront_false (tp t : Tok) (hne : t ≠ tp) (b : List Char) :
    matchesFront (Tok.text tp).data ((Tok.text t).data ++ b) = false := by
  cases tp <;> cases t <;>
    first
      | exact absurd rfl hne
      | exact matchesFront_false_of_ne_at 1 _ _ (by decide) (by decide) (by decide) b
      | exact matchesFront_false_of_ne_at 2 _ _ (by decide) (by decide) (by decide) b

/-- A char list without `[` contains no occurrence of any token. -/
theorem no_token_of_bracket_free (l : List Char) (h : '[' ∉ l) (t : Tok) :
    ¬ (Tok.text t).data <:+: l := by
  rintro ⟨u, v, huv⟩
  apply h
  rw [← huv]
  have hb : '[' ∈ (Tok.text t).data := tok_has_bracket t
  simp only [List.mem_append]
  exact Or.inl (Or.inr hb)

/-! ## One substitution pass over a segment-structured text -/

theorem renderSegs_nil_data : (renderSegs []).data = [] := rfl

theorem renderSegs_lit_data (s : String) (rest : List Seg) :
    (renderSegs (Seg.lit s :: rest)).data = s.data ++ (renderSegs rest).data := by
  simp [renderSegs, String.data_append]

theorem renderSegs_tok_data (t : Tok) (rest : List Seg) :
    (renderSegs (Seg.tok t :: rest)).data = (Tok.text t).data ++ (renderSegs rest).data := by
  simp [renderSegs, String.data_append]

/-- A pass slides over an occurrence of a different token: it cannot match
there (`hm`), and the token's tail holds no further `[`. -/
theorem replaceAll_slide (p r q : List Char) (hp : p.head? = some '[')
    (hq : q.head? = some '[') (hqt : '[' ∉ q.tail)
    (hm : ∀ b, matchesFront p (q ++ b) = false) (b : List Char) :
    replaceAll p r (q ++ b) = q ++ replaceAll p r b := by
  cases q with
  | nil => simp at hq
  | cons x xs =>
    have hx : x = '[' := by simpa using hq
    subst hx
    rw [List.cons_append, replaceAll_cons]
    have hmb := hm b
    rw [List.cons_append] at hmb
    rw [hmb]
    simp only [Bool.false_and, if_neg (by simp : ¬(false = true))]
    have hxs : '[' ∉ xs := by simpa using hqt
    rw [replaceAll_skip p r hp xs hxs b, List.cons_append]

/-- One `str.replace` pass for token `tp` over a rendered segment list (with
bracket-free literals and replacement) replaces exactly the `tp` segments. -/
theorem replaceAll_renderSegs (tp : Tok) (rep : String) :
    ∀ segs : List Seg, litsBracketFree segs →
      replaceAll (Tok.text tp).data rep.data (renderSegs segs).data
        = (renderSegs (segs.map (substTokSeg tp rep))).data := by
  intro segs
  induction segs with
  | nil => simp [renderSegs_nil_data]
  | cons seg rest ih =>
    intro hl
    have hlr : litsBracketFree rest := fun s hs => hl s (List.mem_cons_of_mem _ hs)
    cases seg with
    | lit s =>
      have hs : '[' ∉ s.data := hl s (List.mem_cons_self _ _)
      have hsub : substTokSeg tp rep (Seg.lit s) = Seg.lit s := rfl
      rw [renderSegs_lit_data, replaceAll_skip _ _ (tok_head tp) s.data hs,
          ih hlr, List.map_cons, hsub, renderSegs_lit_data]
    | tok t =>
      by_cases ht : t = tp
      · subst ht
        have hsub : substTokSeg t rep (Seg.tok t) = Seg.lit rep := by
          simp [substTokSeg]
        rw [renderSegs_tok_data, replaceAll_hit _ _ (tok_ne_nil t) _,
            ih hlr, List.map_cons, hsub, renderSegs_lit_data]
      · have hsub : substTokSeg tp rep (Seg.tok t) = Seg.tok t := by
          simp [substTokSeg, ht]
        rw [renderSegs_tok_data,
            replaceAll_slide _ _ _ (tok_head tp) (tok_head t)
              (tok_tail_bracket_free t) (tok_matchesFront_false tp t ht) _,
            ih hlr, List.map_cons, hsub, renderSegs_tok_data]

theorem litsBracketFree_map (tp : Tok) (rep : String) (hrep : '[' ∉ rep.data)
    (segs : List Seg) (hl : litsBracketFree segs) :
    litsBracketFree (segs.map (substTokSeg tp rep)) := by
  intro s hs
  rw [List.mem_map] at hs
  obtain ⟨seg, hseg, heq⟩ := hs
  cases seg with
  | lit s0 =>
    simp only [substTokSeg] at heq
    cases heq
    exact hl _ hseg
  | tok t =>
    simp only [substTokSeg] at heq
    by_cases ht : t = tp
    · rw [if_pos ht] at heq
      cases heq
      exact hrep
    · rw [if_neg ht] at heq
      cases heq

theorem render_bracket_free :
    ∀ segs : List Seg, litsBracketFree segs →
      (∀ seg ∈ segs, ∃ s, seg = Seg.lit s) → '[' ∉ (renderSegs segs).data := by
  intro segs
  induction segs with
  | nil =>
    intro _ _
    simp [renderSegs_nil_data]
  | cons seg rest ih =>
    intro hl hall
    obtain ⟨s, hs⟩ := hall seg (List.mem_cons_self _ _)
    subst hs
    rw [renderSegs_lit_data]
    intro hmem
    rw [List.mem_append] at hmem
    rcases hmem with h | h
    · exact hl s (List.mem_cons_self _ _) h
    · exact ih (fun u hu => hl u (List.mem_cons_of_mem _ hu))
        (fun u hu => hall u (List.mem_cons_of_mem _ hu)) h

theorem map_four_all_lit (c r : String) (segs : List Seg) :
    ∀ seg ∈ (((segs.map (substTokSeg .companyName c)).map
        (substTokSeg .recruiterName r)).map
        (substTokSeg .companyCaps c)).map (substTokSeg .recruiterCaps r),
      ∃ s, seg = Seg.lit s := by
  intro seg hseg
  simp only [List.mem_map] at hseg
  obtain ⟨a, ⟨b, ⟨c1, ⟨d, _, e1⟩, e2⟩, e3⟩, e4⟩ := hseg
  subst e4
  subst e3
  subst e2
  subst e1
  cases d with
  | lit s => exact ⟨s, rfl⟩
  | tok t => cases t <;> exact ⟨_, rfl⟩

/-- The `.data` unfolding of the four-replace block. -/
theorem replace_placeholders_data (text c r : String) :
    (replace_placeholders text c r).data =
      replaceAll (Tok.text .recruiterCaps).data r.data
        (replaceAll (Tok.text .companyCaps).data c.data
          (replaceAll (Tok.text .recruiterName).data r.data
            (replaceAll (Tok.text .companyName).data c.data text.data))) := rfl

/-- The four-replace body block eliminates every placeholder token from any
template assembled from tokens and bracket-free literal text, provided the
substituted names hold no `[`. -/
theorem replace_placeholders_no_token (segs : List Seg) (c r : String)
    (hc : '[' ∉ c.data) (hr : '[' ∉ r.data) (hl : litsBracketFree segs) (t : Tok) :
    ¬ (Tok.text t).data <:+: (replace_placeholders (renderSegs segs) c r).data := by
  have hl1 := litsBracketFree_map .companyName c hc segs hl
  have hl2 := litsBracketFree_map .recruiterName r hr _ hl1
  have hl3 := litsBracketFree_map .companyCaps c hc _ hl2
  have hl4 := litsBracketFree_map .recruiterCaps r hr _ hl3
  have h1 := replaceAll_renderSegs .companyName c segs hl
  have h2 := replaceAll_renderSegs .recruiterName r _ hl1
  have h3 := replaceAll_renderSegs .companyCaps c _ hl2
  have h4 := replaceAll_renderSegs .recruiterCaps r _ hl3
  rw [replace_placeholders_data, h1, h2, h3, h4]
  exact no_token_of_bracket_free _
    (render_bracket_free _ hl4 (map_four_all_lit c r segs)) t

/-- The `.data` unfolding of the two-replace subject block. -/
theorem subject_pass_data (text c r : String) :
    (pyReplace (pyReplace text "[Company Name]" c) "[Recruiter Name]" r).data =
      replaceAll (Tok.text .recruiterName).data r.data
        (replaceAll (Tok.text .companyName).data c.data text.data) := rfl

theorem map_two_all_lit (c r : String) (segs : List Seg)
    (htok : ∀ t, Seg.tok t ∈ segs → t = Tok.companyName ∨ t = Tok.recruiterName) :
    ∀ seg ∈ (segs.map (substTokSeg .companyName c)).map (substTokSeg .recruiterName r),
      ∃ s, seg = Seg.lit s := by
  intro seg hseg
  simp only [List.mem_map] at hseg
  obtain ⟨a, ⟨d, hd, e1⟩, e2⟩ := hseg
  subst e2
  subst e1
  cases d with
  | lit s => exact ⟨s, rfl⟩
  | tok t =>
    rcases htok t hd with h | h <;> subst h <;> exact ⟨_, rfl⟩

/-- The two-replace subject block eliminates every token from a template
assembled from the two long tokens and bracket-free literal text, when the
substituted names hold no `[`. -/
theorem subject_substitution_no_token (segs : List Seg) (c r : String)
    (hc : '[' ∉ c.data) (hr : '[' ∉ r.data) (hl : litsBracketFree segs)
    (htok : ∀ t, Seg.tok t ∈ segs → t = Tok.companyName ∨ t = Tok.recruiterName) (t : Tok) :
    ¬ (Tok.text t).data <:+:
      (pyReplace (pyReplace (renderSegs segs) "[Company Name]" c) "[Recruiter Name]" r).data := by
  have hl1 := litsBracketFree_map .companyName c hc segs hl
  have hl2 := litsBracketFree_map .recruiterName r hr _ hl1
  have h1 := replaceAll_renderSegs .companyName c segs hl
  have h2 := replaceAll_renderSegs .recruiterName r _ hl1
  rw [subject_pass_data, h1, h2]
  exact no_token_of_bracket_free _
    (render_bracket_free _ hl2 (map_two_all_lit c r segs htok)) t

/-! ## Properties of the campaign loop -/

theorem campaign_results_append (t1 t2 : List Event) :
    campaign_results (t1 ++ t2) = campaign_results t1 ++ campaign_results t2 := by
  simp [campaign_results]

theorem recipient_result_ok (ctx : RunCtx) (row : Row) (r : CampaignResult)
    (h : try_recipient ctx row = .ok r) : recipient_result ctx row = r := by
  simp [recipient_result, h]

theorem recipient_result_error (ctx : RunCtx) (row : Row) (e : String)
    (h : try_recipient ctx row = .error e) :
    recipient_result ctx row =
      { company := rowGetD row "Company Name" "Unknown",
        recruiter := rowGetD row "Recruiter" "Unknown",
        email := rowGetD row "Email" "Unknown",
        subject := "Error", success := false,
        message := "Campaign error: " ++ e } := by
  simp [recipient_result, h]

theorem campaign_results_iteration (ctx : RunCtx) (total idx : Nat) (row : Row) :
    campaign_results (iteration_events ctx total idx row) = [recipient_result ctx row] := by
  cases h : try_recipient ctx row with
  | ok r =>
    by_cases hidx : idx < total - 1 <;>
      simp [iteration_events, campaign_results, h, hidx, recipient_result_ok ctx row r h]
  | error e =>
    simp [iteration_events, campaign_results, h, recipient_result_error ctx row e h]

theorem campaign_results_run_loop (ctx : RunCtx) (total : Nat) :
    ∀ (idx : Nat) (rows : List Row),
      campaign_results (run_loop ctx total idx rows) = rows.map (recipient_result ctx) := by
  intro idx rows
  induction rows generalizing idx with
  | nil => rfl
  | cons row rest ih =>
    simp only [run_loop]
    rw [campaign_results_append, campaign_results_iteration, ih (idx + 1), List.map_cons]
    rfl

theorem run_campaign_results (ctx : RunCtx) (rows : List Row) :
    campaign_results (run_campaign ctx rows) = rows.map (recipient_result ctx) :=
  campaign_results_run_loop ctx rows.length 0 rows

theorem run_loop_ok_trace (ctx : RunCtx) :
    ∀ (rows : List Row) (idx total : Nat), idx + rows.length = total →
      (∀ row ∈ rows, ∃ r, try_recipient ctx row = .ok r) →
      run_loop ctx total idx rows
        = interleave_sleeps ctx.delay_seconds (rows.map (recipient_result ctx)) := by
  intro rows
  induction rows with
  | nil =>
    intro idx total _ _
    rfl
  | cons row rest ih =>
    intro idx total htot hok
    obtain ⟨r, hr⟩ := hok row (List.mem_cons_self _ _)
    have hrr : recipient_result ctx row = r := recipient_result_ok ctx row r hr
    simp only [run_loop, iteration_events, hr]
    cases rest with
    | nil =>
      simp only [List.length_cons, List.length_nil] at htot
      have hnlt : ¬ idx < total - 1 := by omega
      rw [if_neg hnlt]
      simp [run_loop, interleave_sleeps, hrr]
    | cons row2 rest2 =>
      have hlt : idx < total - 1 := by
        simp only [List.length_cons] at htot
        omega
      rw [if_pos hlt]
      have ih2 := ih (idx + 1) total
        (by simp only [List.length_cons] at htot ⊢; omega)
        (fun row' h' => hok row' (List.mem_cons_of_mem _ h'))
      simp [interleave_sleeps, hrr, ih2, List.map_cons]

theorem run_campaign_ok_trace (ctx : RunCtx) (rows : List Row)
    (hok : ∀ row ∈ rows, ∃ r, try_recipient ctx row = .ok r) :
    run_campaign ctx rows
      = interleave_sleeps ctx.delay_seconds (rows.map (recipient_result ctx)) :=
  run_loop_ok_trace ctx rows 0 rows.length (Nat.zero_add _) hok

theorem sleep_count_interleave (d : Nat) :
    ∀ l : List CampaignResult, sleep_count (interleave_sleeps d l) = l.length - 1
  | [] => by simp [interleave_sleeps, sleep_count]
  | [r] => by simp [interleave_sleeps, sleep_count]
  | r :: s :: rest => by
    have ih := sleep_count_interleave d (s :: rest)
    simp [interleave_sleeps, sleep_count, List.countP_cons] at ih ⊢
    omega

theorem sleep_mem_interleave (d : Nat) :
    ∀ (l : List CampaignResult) (x : Nat), Event.sleep x ∈ interleave_sleeps d l → x = d
  | [], x => by simp [interleave_sleeps]
  | [r], x => by simp [interleave_sleeps]
  | r :: s :: rest, x => by
    intro hmem
    simp only [interleave_sleeps, List.mem_cons] at hmem
    rcases hmem with h | h | h
    · cases h
    · cases h
      rfl
    · exact sleep_mem_interleave d (s :: rest) x
        (by simpa [interleave_sleeps] using h)

theorem run_loop_ext (ctx1 ctx2 : RunCtx) (hd : ctx1.delay_seconds = ctx2.delay_seconds)
    (htry : ∀ row, try_recipient ctx1 row = try_recipient ctx2 row) (total : Nat) :
    ∀ (idx : Nat) (rows : List Row),
      run_loop ctx1 total idx rows = run_loop ctx2 total idx rows := by
  intro idx rows
  induction rows generalizing idx with
  | nil => rfl
  | cons row rest ih =>
    simp only [run_loop, iteration_events, htry row, hd, ih (idx + 1)]

/-! ## Properties of composition and the transport -/

theorem compose_body_manual (ss : SessionState) (g : GeminiAI) (template c r : String)
    (hmode : ss.personalization_mode.getD AI_MODE ≠ AI_MODE) :
    compose_body ss g template c r = replace_placeholders template c r := by
  simp [compose_body, hmode]

theorem compose_body_override (ss : SessionState) (g : GeminiAI) (template c r ov : String)
    (hmode : ss.personalization_mode.getD AI_MODE = AI_MODE)
    (hov : ss.preview_email_content = some ov) :
    compose_body ss g template c r = replace_placeholders ov c r := by
  simp [compose_body, hmode, hov]

theorem compose_body_generated (ss : SessionState) (g : GeminiAI) (template c r : String)
    (hmode : ss.personalization_mode.getD AI_MODE = AI_MODE)
    (hov : ss.preview_email_content = none) :
    compose_body ss g template c r
      = personalize_email g c r template
          (match ss.resume_file with
           | some f => g.extract_resume_content f
           | none => "") := by
  simp [compose_body, hmode, hov]

theorem personalize_email_no_model (g : GeminiAI) (c r t rs : String)
    (h : g.hasModel = false) :
    personalize_email g c r t rs = get_fallback_content c r t := by
  simp [personalize_email, h]

theorem personalize_email_exn (g : GeminiAI) (c r t rs e : String)
    (hm : g.hasModel = true) (h : g.generate c r = .error e) :
    personalize_email g c r t rs = get_fallback_content c r t := by
  simp [personalize_email, hm, h]

theorem personalize_email_falsy (g : GeminiAI) (c r t rs : String)
    (hm : g.hasModel = true) (h : g.generate c r = .ok none) :
    personalize_email g c r t rs = get_fallback_content c r t := by
  simp [personalize_email, hm, h]

theorem personalize_email_empty (g : GeminiAI) (c r t rs : String)
    (hm : g.hasModel = true) (h : g.generate c r = .ok (some "")) :
    personalize_email g c r t rs = get_fallback_content c r t := by
  simp [personalize_email, hm, h]

theorem personalize_email_text (g : GeminiAI) (c r t rs txt : String)
    (hm : g.hasModel = true) (h : g.generate c r = .ok (some txt)) (hne : txt ≠ "") :
    personalize_email g c r t rs = pyStrip txt := by
  simp [personalize_email, hm, h, hne]

theorem compose_subject_override (ss : SessionState) (st c r ov : String)
    (hov : ss.preview_email_subject = some ov) :
    compose_subject ss st c r
      = pyReplace (pyReplace ov "[Company Name]" c) "[Recruiter Name]" r := by
  simp [compose_subject, hov]

theorem compose_subject_template (ss : SessionState) (st c r : String)
    (hov : ss.preview_email_subject = none) :
    compose_subject ss st c r
      = pyReplace (pyReplace st "[Company Name]" c) "[Recruiter Name]" r := by
  simp [compose_subject, hov]

theorem try_recipient_fields (ctx : RunCtx) (row : Row) (c r e : String)
    (hc : rowGet row "Company Name" = .ok c) (hr : rowGet row "Recruiter" = .ok r)
    (he : rowGet row "Email" = .ok e) :
    try_recipient ctx row = .ok
      { company := c, recruiter := r, email := e,
        subject := compose_subject ctx.session ctx.subject_template c r,
        success := (send_email ctx.auth e (compose_subject ctx.session ctx.subject_template c r)
          (compose_body ctx.session ctx.gemini ctx.email_template c r)).1,
        message := (send_email ctx.auth e (compose_subject ctx.session ctx.subject_template c r)
          (compose_body ctx.session ctx.gemini ctx.email_template c r)).2 } := by
  simp [try_recipient, hc, hr, he]

theorem send_email_no_service (auth : GmailAuthenticator) (to_email subject body : String)
    (h : auth.service = none) :
    send_email auth to_email subject body = (false, "Gmail service not available") := by
  simp [send_email, h]

theorem send_email_exn (auth : GmailAuthenticator) (to_email subject body : String)
    (svc : GmailService) (e : String) (h : auth.service = some svc)
    (hs : svc.sendRaw (create_email_message to_email subject body) = .error e) :
    send_email auth to_email subject body = (false, "Failed to send email: " ++ e) := by
  simp [send_email, h, hs]

theorem send_email_sent (auth : GmailAuthenticator) (to_email subject body : String)
    (svc : GmailService) (messageId : String) (h : auth.service = some svc)
    (hs : svc.sendRaw (create_email_message to_email subject body) = .ok messageId) :
    send_email auth to_email subject body
      = (true, "Email sent successfully (ID: " ++ messageId ++ ")") := by
  simp [send_email, h, hs]

theorem error_text_in_failure_message (e : String) :
    e.data <:+: ("Failed to send email: " ++ e).data :=
  ⟨"Failed to send email: ".data, [], by simp [String.data_append]⟩

/-! ## Properties of the validator -/

theorem contains_iff_mem (l : List String) (a : String) : l.contains a = true ↔ a ∈ l := by
  simp [List.contains, List.elem_iff]

theorem col_msg_head (c : String) :
    ("Column '" ++ c ++ "' contains empty values").data.head? = some 'C' := rfl

theorem missing_msg_head (x : String) :
    ("Missing required columns: " ++ x).data.head? = some 'M' := rfl

theorem invalid_msg_head (x y : String) :
    ("Invalid email addresses found: " ++ x ++ y).data.head? = some 'I' := rfl

theorem missing_msg_ne_col_msg (x c : String) :
    "Missing required columns: " ++ x ≠ "Column '" ++ c ++ "' contains empty values" := by
  intro h
  have h1 : some 'M' = some 'C' := by
    calc some 'M' = ("Missing required columns: " ++ x).data.head? := (missing_msg_head x).symm
    _ = ("Column '" ++ c ++ "' contains empty values").data.head? := by rw [h]
    _ = some 'C' := col_msg_head c
  exact absurd h1 (by decide)

theorem invalid_msg_ne_col_msg (x y c : String) :
    "Invalid email addresses found: " ++ x ++ y
      ≠ "Column '" ++ c ++ "' contains empty values" := by
  intro h
  have h1 : some 'I' = some 'C' := by
    calc some 'I' = ("Invalid email addresses found: " ++ x ++ y).data.head? :=
          (invalid_msg_head x y).symm
    _ = ("Column '" ++ c ++ "' contains empty values").data.head? := by rw [h]
    _ = some 'C' := col_msg_head c
  exact absurd h1 (by decide)

theorem count_missingColumnErrors_zero (df : DataFrame) (c : String) :
    (missingColumnErrors df).count ("Column '" ++ c ++ "' contains empty values") = 0 := by
  rw [List.count_eq_zero]
  intro hmem
  unfold missingColumnErrors at hmem
  split at hmem
  · rw [List.mem_singleton] at hmem
    exact missing_msg_ne_col_msg _ c hmem.symm
  · cases hmem

theorem count_invalidEmailErrors_zero (df : DataFrame) (c : String) :
    (invalidEmailErrors df).count ("Column '" ++ c ++ "' contains empty values") = 0 := by
  rw [List.count_eq_zero]
  intro hmem
  unfold invalidEmailErrors at hmem
  split at hmem
  · rw [List.mem_singleton] at hmem
    exact invalid_msg_ne_col_msg _ _ c hmem.symm
  · cases hmem

theorem count_emptyValueErrors_one (df : DataFrame) (c : String)
    (hc : c ∈ requiredColumns)
    (hpred : (df.columns.contains c && (df.col c).any Cell.isNa) = true) :
    (emptyValueErrors df).count ("Column '" ++ c ++ "' contains empty values") = 1 := by
  have hc3 : c = "Company Name" ∨ c = "Recruiter" ∨ c = "Email" := by
    simpa [requiredColumns] using hc
  rcases hc3 with rfl | rfl | rfl
  · rcases Bool.eq_false_or_eq_true
        (df.columns.contains "Recruiter" && (df.col "Recruiter").any Cell.isNa) with h2 | h2 <;>
    rcases Bool.eq_false_or_eq_true
        (df.columns.contains "Email" && (df.col "Email").any Cell.isNa) with h3 | h3 <;>
    · simp only [emptyValueErrors, requiredColumns, List.filter_cons, List.filter_nil,
        hpred, h2, h3]
      decide
  · rcases Bool.eq_false_or_eq_true
        (df.columns.contains "Company Name" && (df.col "Company Name").any Cell.isNa) with h1 | h1 <;>
    rcases Bool.eq_false_or_eq_true
        (df.columns.contains "Email" && (df.col "Email").any Cell.isNa) with h3 | h3 <;>
    · simp only [emptyValueErrors, requiredColumns, List.filter_cons, List.filter_nil,
        hpred, h1, h3]
      decide
  · rcases Bool.eq_false_or_eq_true
        (df.columns.contains "Company Name" && (df.col "Company Name").any Cell.isNa) with h1 | h1 <;>
    rcases Bool.eq_false_or_eq_true
        (df.columns.contains "Recruiter" && (df.col "Recruiter").any Cell.isNa) with h2 | h2 <;>
    · simp only [emptyValueErrors, requiredColumns, List.filter_cons, List.filter_nil,
        hpred, h1, h2]
      decide

theorem validate_ok_pair (df : DataFrame) (b : Bool) (errs : List String)
    (h : validate_company_data df = .ok (b, errs)) : b = errs.isEmpty := by
  unfold validate_company_data at h
  split at h
  · split at h
    · cases h
    · rw [Except.ok.injEq] at h
      cases h
      rfl
  · rw [Except.ok.injEq] at h
    cases h
    rfl

theorem validate_missing_email (df : DataFrame) (h : "Email" ∉ df.columns) :
    validate_company_data df =
        .ok (false, ("Missing required columns: "
            ++ String.intercalate ", " (missingColumns df)) :: emptyValueErrors df)
      ∧ "Email" ∈ missingColumns df := by
  have hcont : df.columns.contains "Email" = false := by
    rcases Bool.eq_false_or_eq_true (df.columns.contains "Email") with hc | hc
    · exact absurd ((contains_iff_mem _ _).mp hc) h
    · exact hc
  have hmem : "Email" ∈ missingColumns df := by
    unfold missingColumns
    rw [List.mem_filter]
    refine ⟨by decide, ?_⟩
    rw [hcont]
    rfl
  refine ⟨?_, hmem⟩
  have hne : (missingColumns df).isEmpty = false := by
    simp only [List.isEmpty_eq_false]
    exact List.ne_nil_of_mem hmem
  unfold validate_company_data
  rw [if_neg (by rw [hcont]; exact Bool.false_ne_true)]
  unfold missingColumnErrors
  rw [hne]
  simp

theorem validate_all_good (df : DataFrame)
    (hcols : ∀ c ∈ requiredColumns, c ∈ df.columns)
    (hnonan : ∀ c ∈ requiredColumns, ∀ cell ∈ df.col c, cell.isNa = false)
    (hmatch : ∀ cell ∈ df.col "Email", cellMatchesEmail cell = true) :
    validate_company_data df = .ok (true, []) := by
  have hcontE : df.columns.contains "Email" = true :=
    (contains_iff_mem _ _).mpr (hcols "Email" (by simp [requiredColumns]))
  have hmc : missingColumns df = [] := by
    unfold missingColumns
    rw [List.filter_eq_nil_iff]
    intro a ha
    have hca : df.columns.contains a = true := (contains_iff_mem _ _).mpr (hcols a ha)
    simp only [hca, Bool.not_true]
    exact Bool.false_ne_true
  have hmce : missingColumnErrors df = [] := by
    simp [missingColumnErrors, hmc]
  have heve : emptyValueErrors df = [] := by
    unfold emptyValueErrors
    rw [show (requiredColumns.filter
        (fun c => df.columns.contains c && (df.col c).any Cell.isNa)) = [] from ?_]
    · rfl
    · rw [List.filter_eq_nil_iff]
      intro a ha
      have hany : (df.col a).any Cell.isNa = false := by
        rw [List.any_eq_false]
        intro cell hcell
        simp [hnonan a ha cell hcell]
      simp only [hany, Bool.and_false]
      exact Bool.false_ne_true
  have hnum : numericDtype (df.col "Email") = false := by
    unfold numericDtype
    cases hcol : df.col "Email" with
    | nil => simp
    | cons cell rest =>
      have h1 := hmatch cell (hcol ▸ List.mem_cons_self _ _)
      have h2 : cell.isStr = true := by
        cases cell <;> simp_all [cellMatchesEmail, Cell.isStr]
      simp [h2]
  have hinv : invalidEmailCount df = 0 := by
    unfold invalidEmailCount
    rw [List.countP_eq_zero]
    intro cell hcell
    simp [hmatch cell hcell]
  unfold validate_company_data
  rw [if_pos hcontE, if_neg (by simp [hnum])]
  simp [invalidEmailErrors, hinv, hmce, heve]

/-- The shape of the validator's result whenever it does not raise: the
outcome pair is `(errors.isEmpty, errors)` with the three error groups in
source order. -/
theorem validate_no_raise (df : DataFrame)
    (hdtype : ¬(df.columns.contains "Email" = true
        ∧ numericDtype (df.col "Email") = true)) :
    ∃ tailErrs, validate_company_data df
        = .ok ((missingColumnErrors df ++ emptyValueErrors df ++ tailErrs).isEmpty,
               missingColumnErrors df ++ emptyValueErrors df ++ tailErrs)
      ∧ (tailErrs = [] ∨ tailErrs = invalidEmailErrors df) := by
  unfold validate_company_data
  rcases (Bool.eq_false_or_eq_true (df.columns.contains "Email")).symm with hcont | hcont
  · refine ⟨[], ?_, Or.inl rfl⟩
    rw [if_neg (by rw [hcont]; exact Bool.false_ne_true)]
    simp
  · have hnum : numericDtype (df.col "Email") = false := by
      rcases Bool.eq_false_or_eq_true (numericDtype (df.col "Email")) with hn | hn
      · exact absurd ⟨hcont, hn⟩ hdtype
      · exact hn
    refine ⟨invalidEmailErrors df, ?_, Or.inr rfl⟩
    rw [if_pos hcont, if_neg (by rw [hnum]; exact Bool.false_ne_true)]

/-! ## The claims -/

/-- Claim C1: a campaign run appends exactly one CampaignResult per
recipient, in dataset order (the result log equals the row-wise map of the
per-recipient outcome); a recipient whose iteration raises during
composition (field access) is recorded with `success = false` and the error
text, a recipient whose send fails is recorded with the transport's failure
message — and in all cases the loop continues through every remaining
recipient, as the map equation over the whole dataset shows. -/
theorem claim_C1_one_result_per_recipient :
    (∀ (ctx : RunCtx) (rows : List Row),
        campaign_results (run_campaign ctx rows) = rows.map (recipient_result ctx))
    ∧ (∀ (ctx : RunCtx) (row : Row) (e : String),
        try_recipient ctx row = .error e →
          (recipient_result ctx row).success = false
          ∧ (recipient_result ctx row).message = "Campaign error: " ++ e)
    ∧ (∀ (ctx : RunCtx) (row : Row) (c r em m : String),
        rowGet row "Company Name" = .ok c → rowGet row "Recruiter" = .ok r →
        rowGet row "Email" = .ok em →
        send_email ctx.auth em (compose_subject ctx.session ctx.subject_template c r)
          (compose_body ctx.session ctx.gemini ctx.email_template c r) = (false, m) →
          recipient_result ctx row =
            { company := c, recruiter := r, email := em,
              subject := compose_subject ctx.session ctx.subject_template c r,
              success := false, message := m }) := by
  refine ⟨run_campaign_results, ?_, ?_⟩
  · intro ctx row e h
    rw [recipient_result_error ctx row e h]
    exact ⟨rfl, rfl⟩
  · intro ctx row c r em m hc hr he hs
    rw [recipient_result_ok ctx row _ (try_recipient_fields ctx row c r em hc hr he)]
    simp [hs]

theorem claim_C1_one_result_per_recipient_witness :
    campaign_results (run_campaign ctxManualReject [rowAcme, rowNoCompany])
        = [rowAcme, rowNoCompany].map (recipient_result ctxManualReject)
    ∧ ((recipient_result ctxManualReject rowNoCompany).success = false
        ∧ (recipient_result ctxManualReject rowNoCompany).message
            = "Campaign error: " ++ "'Company Name'")
    ∧ recipient_result ctxManualReject rowAcme
        = { company := "Acme", recruiter := "Jane", email := "jane@acme.com",
            subject := compose_subject ctxManualReject.session
              ctxManualReject.subject_template "Acme" "Jane",
            success := false, message := "Failed to send email: HttpError 403" } := by
  refine ⟨claim_C1_one_result_per_recipient.1 ctxManualReject _, ?_, ?_⟩
  · exact claim_C1_one_result_per_recipient.2.1 ctxManualReject rowNoCompany
      "'Company Name'" (by rfl)
  · exact claim_C1_one_result_per_recipient.2.2 ctxManualReject rowAcme
      "Acme" "Jane" "jane@acme.com" "Failed to send email: HttpError 403"
      (by rfl) (by rfl) (by rfl) (by rfl)

/-- Counterexample to claim C7 as stated: the suspension does not happen
after *every* non-last recipient — an iteration whose `try` block raises
skips the sleep (the sleep sits inside the `try`, after the raise point), so
a 2-recipient run whose first row lacks the Company Name field performs 0
sleeps rather than 1. -/
theorem claim_C7_counterexample :
    sleep_count (run_campaign ctxManualReject [rowNoCompany, rowAcme]) = 0
    ∧ [rowNoCompany, rowAcme].length = 2
    ∧ ctxManualReject.delay_seconds = 60
    ∧ (campaign_results (run_campaign ctxManualReject [rowNoCompany, rowAcme])).length = 2 := by
  refine ⟨by decide, rfl, rfl, by decide⟩

/-- Claim C7 (amended): on a run in which no iteration raises (every row's
field accesses succeed — send failures included, since they are returned,
not raised), the trace is exactly the results interleaved with sleeps: one
suspension of exactly `delay_seconds` after each recipient that is not the
last, hence exactly N-1 sleeps; an iteration that raises skips its sleep. -/
theorem claim_C7_pacing (ctx : RunCtx) (rows : List Row)
    (hok : ∀ row ∈ rows, ∃ r, try_recipient ctx row = .ok r) :
    run_campaign ctx rows
        = interleave_sleeps ctx.delay_seconds (rows.map (recipient_result ctx))
    ∧ sleep_count (run_campaign ctx rows) = rows.length - 1
    ∧ (∀ x, Event.sleep x ∈ run_campaign ctx rows → x = ctx.delay_seconds) := by
  have ht := run_campaign_ok_trace ctx rows hok
  refine ⟨ht, ?_, ?_⟩
  · rw [ht, sleep_count_interleave, List.length_map]
  · intro x hx
    rw [ht] at hx
    exact sleep_mem_interleave _ _ x hx

theorem claim_C7_pacing_witness :
    run_campaign ctxManualReject [rowAcme, rowBeta]
        = interleave_sleeps 60 ([rowAcme, rowBeta].map (recipient_result ctxManualReject))
    ∧ sleep_count (run_campaign ctxManualReject [rowAcme, rowBeta]) = 1
    ∧ (∀ x, Event.sleep x ∈ run_campaign ctxManualReject [rowAcme, rowBeta] → x = 60) := by
  have h := claim_C7_pacing ctxManualReject [rowAcme, rowBeta] ?hok
  case hok =>
    intro row hrow
    simp only [List.mem_cons, List.not_mem_nil, or_false] at hrow
    rcases hrow with rfl | rfl
    · exact ⟨_, rfl⟩
    · exact ⟨_, rfl⟩
  exact h

/-- Claim C9: `send_email` is total over faults: with no service handle it
returns `(False, "Gmail service not available")` without any send being
attempted (the result is fixed by `service = none` alone); a raised send
exception is converted to `(False, "Failed to send email: ...")` with the
error text contained in the message; a successful send returns `(True, ...)`
with the message id.  In the embedding the function is total by
construction, so the transport step of the campaign loop cannot raise. -/
theorem claim_C9_send_email_total (auth : GmailAuthenticator) (to_email subject body : String) :
    (auth.service = none →
        send_email auth to_email subject body = (false, "Gmail service not available"))
    ∧ (∀ svc e, auth.service = some svc →
        svc.sendRaw (create_email_message to_email subject body) = .error e →
          send_email auth to_email subject body = (false, "Failed to send email: " ++ e)
          ∧ e.data <:+: (send_email auth to_email subject body).2.data)
    ∧ (∀ svc messageId, auth.service = some svc →
        svc.sendRaw (create_email_message to_email subject body) = .ok messageId →
          send_email auth to_email subject body
            = (true, "Email sent successfully (ID: " ++ messageId ++ ")")) := by
  refine ⟨?_, ?_, ?_⟩
  · intro h
    exact send_email_no_service auth to_email subject body h
  · intro svc e h hs
    have heq := send_email_exn auth to_email subject body svc e h hs
    refine ⟨heq, ?_⟩
    rw [heq]
    exact error_text_in_failure_message e
  · intro svc messageId h hs
    exact send_email_sent auth to_email subject body svc messageId h hs

theorem claim_C9_send_email_total_witness :
    send_email authNone "a@b.co" "s" "b" = (false, "Gmail service not available")
    ∧ send_email authReject "a@b.co" "s" "b" = (false, "Failed to send email: HttpError 403")
    ∧ send_email authAccept "a@b.co" "s" "b" = (true, "Email sent successfully (ID: msg-1)") := by
  refine ⟨?_, ?_, ?_⟩
  · exact (claim_C9_send_email_total authNone "a@b.co" "s" "b").1 rfl
  · exact ((claim_C9_send_email_total authReject "a@b.co" "s" "b").2.1 svcReject
      "HttpError 403" rfl rfl).1
  · exact (claim_C9_send_email_total authAccept "a@b.co" "s" "b").2.2 svcAccept
      "msg-1" rfl rfl

/-- Claim C5: under the Generated (AI) strategy with a saved override body,
composition never consults the generation collaborator — the composed body
is the override text with the placeholders substituted, identically for
every recipient of the run (the whole run trace is independent of the
collaborator); a saved override subject likewise takes precedence over the
configured subject template. -/
theorem claim_C5_override_precedence :
    (∀ (ss : SessionState) (ov : String),
        ss.personalization_mode.getD AI_MODE = AI_MODE →
        ss.preview_email_content = some ov →
          (∀ (g g' : GeminiAI) (template c r : String),
              compose_body ss g template c r = compose_body ss g' template c r)
          ∧ (∀ (g : GeminiAI) (template c r : String),
              compose_body ss g template c r = replace_placeholders ov c r))
    ∧ (∀ (ss : SessionState) (os : String), ss.preview_email_subject = some os →
        ∀ (st st' c r : String),
          compose_subject ss st c r = compose_subject ss st' c r
          ∧ compose_subject ss st c r
              = pyReplace (pyReplace os "[Company Name]" c) "[Recruiter Name]" r)
    ∧ (∀ (ctx : RunCtx) (ov : String) (g g' : GeminiAI) (rows : List Row),
        ctx.session.personalization_mode.getD AI_MODE = AI_MODE →
        ctx.session.preview_email_content = some ov →
          run_campaign { ctx with gemini := g } rows
            = run_campaign { ctx with gemini := g' } rows) := by
  refine ⟨?_, ?_, ?_⟩
  · intro ss ov hmode hov
    constructor
    · intro g g' template c r
      rw [compose_body_override ss g template c r ov hmode hov,
          compose_body_override ss g' template c r ov hmode hov]
    · intro g template c r
      exact compose_body_override ss g template c r ov hmode hov
  · intro ss os hos st st' c r
    constructor
    · rw [compose_subject_override ss st c r os hos,
          compose_subject_override ss st' c r os hos]
    · exact compose_subject_override ss st c r os hos
  · intro ctx ov g g' rows hmode hov
    unfold run_campaign
    have htry : ∀ row, try_recipient { ctx with gemini := g } row
        = try_recipient { ctx with gemini := g' } row := ?_
    · exact run_loop_ext { ctx with gemini := g } { ctx with gemini := g' } rfl htry _ _ _
    intro row
    cases hcq : rowGet row "Company Name" with
    | error e => simp [try_recipient, hcq]
    | ok c =>
      cases hrq : rowGet row "Recruiter" with
      | error e => simp [try_recipient, hcq, hrq]
      | ok r =>
        cases heq : rowGet row "Email" with
        | error e => simp [try_recipient, hcq, hrq, heq]
        | ok em =>
          have h1 : compose_body ctx.session g ctx.email_template c r
              = replace_placeholders ov c r :=
            compose_body_override ctx.session g ctx.email_template c r ov hmode hov
          have h2 : compose_body ctx.session g' ctx.email_template c r
              = replace_placeholders ov c r :=
            compose_body_override ctx.session g' ctx.email_template c r ov hmode hov
          simp [try_recipient, hcq, hrq, heq, h1, h2]

theorem claim_C5_override_precedence_witness :
    compose_body sessionAIPreview geminiDown "Hi [Recruiter Name] at [Company Name]"
        "Acme" "Jane"
      = compose_body sessionAIPreview geminiShort "Hi [Recruiter Name] at [Company Name]"
        "Acme" "Jane"
    ∧ compose_body sessionAIPreview geminiDown "Hi [Recruiter Name] at [Company Name]"
        "Acme" "Jane"
      = replace_placeholders "Hello [Recruiter Name] of [COMPANY]" "Acme" "Jane"
    ∧ compose_subject sessionAIPreview "Role at [Company Name]" "Acme" "Jane"
      = pyReplace (pyReplace "About [Company Name]" "[Company Name]" "Acme")
          "[Recruiter Name]" "Jane"
    ∧ run_campaign { ctxAIPreview with gemini := geminiDown } [rowAcme]
      = run_campaign { ctxAIPreview with gemini := geminiShort } [rowAcme] := by
  refine ⟨?_, ?_, ?_, ?_⟩
  · exact (claim_C5_override_precedence.1 sessionAIPreview
      "Hello [Recruiter Name] of [COMPANY]" rfl rfl).1 geminiDown geminiShort _ _ _
  · exact (claim_C5_override_precedence.1 sessionAIPreview
      "Hello [Recruiter Name] of [COMPANY]" rfl rfl).2 geminiDown _ _ _
  · exact ((claim_C5_override_precedence.2.1 sessionAIPreview
      "About [Company Name]" rfl) "Role at [Company Name]" "X" "Acme" "Jane").2
  · exact claim_C5_override_precedence.2.2 ctxAIPreview
      "Hello [Recruiter Name] of [COMPANY]" geminiDown geminiShort [rowAcme] rfl rfl

/-- Counterexample to claim C6 as stated: (i) the fallback is not *exactly*
the Templated substitution result — `_get_fallback_content` additionally
collapses triple line breaks, so for the template `"A\n\n\nB"` the fallback
body is `"A\n\nB"` while the Templated path yields `"A\n\n\nB"`; (ii) short
but nonempty generation output is *not* replaced by the fallback — a
one-character response is used as-is. -/
theorem claim_C6_counterexample :
    compose_body sessionAINoPreview geminiDown "A\n\n\nB" "Acme" "Jane" = "A\n\nB"
    ∧ replace_placeholders "A\n\n\nB" "Acme" "Jane" = "A\n\n\nB"
    ∧ ("A\n\nB" : String) ≠ "A\n\n\nB"
    ∧ compose_body sessionAINoPreview geminiShort "T" "Acme" "Jane" = "x"
    ∧ get_fallback_content "Acme" "Jane" "T" = "T" ∧ ("x" : String) ≠ "T" := by
  exact ⟨by decide, by decide, by decide, by decide, by decide, by decide⟩

/-- Claim C6 (amended): under the Generated strategy without an override, if
the collaborator is unconfigured, raises, or returns an absent/empty text,
the composed body for that recipient is `_get_fallback_content`: the
Templated substitution result with triple line breaks collapsed to double;
the failure never surfaces as an iteration exception (any row whose field
accesses succeed yields a normal `.ok` result, whatever the collaborator
does), so only that recipient's content is affected.  A nonempty generation
result — however short — is used as-is after stripping. -/
theorem claim_C6_generation_fallback (ss : SessionState) (g : GeminiAI)
    (template c r : String)
    (hmode : ss.personalization_mode.getD AI_MODE = AI_MODE)
    (hov : ss.preview_email_content = none) :
    (g.hasModel = false → compose_body ss g template c r = get_fallback_content c r template)
    ∧ (∀ e, g.hasModel = true → g.generate c r = .error e →
        compose_body ss g template c r = get_fallback_content c r template)
    ∧ (g.hasModel = true → g.generate c r = .ok none →
        compose_body ss g template c r = get_fallback_content c r template)
    ∧ (g.hasModel = true → g.generate c r = .ok (some "") →
        compose_body ss g template c r = get_fallback_content c r template)
    ∧ get_fallback_content c r template
        = pyReplace (replace_placeholders template c r) "\n\n\n" "\n\n"
    ∧ (∀ txt, g.hasModel = true → g.generate c r = .ok (some txt) → txt ≠ "" →
        compose_body ss g template c r = pyStrip txt)
    ∧ (∀ (ctx : RunCtx) (row : Row) (c0 r0 e0 : String),
        rowGet row "Company Name" = .ok c0 → rowGet row "Recruiter" = .ok r0 →
        rowGet row "Email" = .ok e0 → ∃ res, try_recipient ctx row = .ok res) := by
  refine ⟨?_, ?_, ?_, ?_, rfl, ?_, ?_⟩
  · intro hm
    rw [compose_body_generated ss g template c r hmode hov]
    exact personalize_email_no_model g c r template _ hm
  · intro e hm hg
    rw [compose_body_generated ss g template c r hmode hov]
    exact personalize_email_exn g c r template _ e hm hg
  · intro hm hg
    rw [compose_body_generated ss g template c r hmode hov]
    exact personalize_email_falsy g c r template _ hm hg
  · intro hm hg
    rw [compose_body_generated ss g template c r hmode hov]
    exact personalize_email_empty g c r template _ hm hg
  · intro txt hm hg hne
    rw [compose_body_generated ss g template c r hmode hov]
    exact personalize_email_text g c r template _ txt hm hg hne
  · intro ctx row c0 r0 e0 hc hr he
    exact ⟨_, try_recipient_fields ctx row c0 r0 e0 hc hr he⟩

theorem claim_C6_generation_fallback_witness :
    compose_body sessionAINoPreview geminiOff "T [COMPANY]" "Acme" "Jane"
        = get_fallback_content "Acme" "Jane" "T [COMPANY]"
    ∧ compose_body sessionAINoPreview geminiDown "T [COMPANY]" "Acme" "Jane"
        = get_fallback_content "Acme" "Jane" "T [COMPANY]"
    ∧ compose_body sessionAINoPreview geminiFalsy "T [COMPANY]" "Acme" "Jane"
        = get_fallback_content "Acme" "Jane" "T [COMPANY]"
    ∧ compose_body sessionAINoPreview geminiEmptyText "T [COMPANY]" "Acme" "Jane"
        = get_fallback_content "Acme" "Jane" "T [COMPANY]"
    ∧ compose_body sessionAINoPreview geminiShort "T [COMPANY]" "Acme" "Jane" = "x"
    ∧ (∃ res, try_recipient ctxAIPreview rowAcme = .ok res) := by
  refine ⟨?_, ?_, ?_, ?_, ?_, ?_⟩
  · exact (claim_C6_generation_fallback sessionAINoPreview geminiOff
      "T [COMPANY]" "Acme" "Jane" rfl rfl).1 rfl
  · exact (claim_C6_generation_fallback sessionAINoPreview geminiDown
      "T [COMPANY]" "Acme" "Jane" rfl rfl).2.1 "quota exceeded" rfl rfl
  · exact (claim_C6_generation_fallback sessionAINoPreview geminiFalsy
      "T [COMPANY]" "Acme" "Jane" rfl rfl).2.2.1 rfl rfl
  · exact (claim_C6_generation_fallback sessionAINoPreview geminiEmptyText
      "T [COMPANY]" "Acme" "Jane" rfl rfl).2.2.2.1 rfl rfl
  · exact (claim_C6_generation_fallback sessionAINoPreview geminiShort
      "T [COMPANY]" "Acme" "Jane" rfl rfl).2.2.2.2.2.1 "x" rfl rfl (by decide)
  · exact (claim_C6_generation_fallback sessionAINoPreview geminiShort
      "T" "Acme" "Jane" rfl rfl).2.2.2.2.2.2 ctxAIPreview rowAcme
      "Acme" "Jane" "jane@acme.com" rfl rfl rfl

/-- Claim C3: a dataset whose columns lack `Email` validates to
`ok = false` with the first error naming the missing column(s) (`Email`
among them); a dataset with all three required columns, no missing values
and all Email cells matching the pattern validates to `(true, [])`; and in
general the returned flag is true exactly when the error list is empty. -/
theorem claim_C3_validator_completeness :
    (∀ df : DataFrame, "Email" ∉ df.columns →
        ∃ missing rest, validate_company_data df
            = .ok (false, ("Missing required columns: "
                ++ String.intercalate ", " missing) :: rest)
          ∧ "Email" ∈ missing)
    ∧ (∀ df : DataFrame, (∀ c ∈ requiredColumns, c ∈ df.columns) →
        (∀ c ∈ requiredColumns, ∀ cell ∈ df.col c, cell.isNa = false) →
        (∀ cell ∈ df.col "Email", cellMatchesEmail cell = true) →
        validate_company_data df = .ok (true, []))
    ∧ (∀ (df : DataFrame) (b : Bool) (errs : List String),
        validate_company_data df = .ok (b, errs) → (b = true ↔ errs = [])) := by
  refine ⟨?_, validate_all_good, ?_⟩
  · intro df h
    obtain ⟨heq, hmem⟩ := validate_missing_email df h
    exact ⟨missingColumns df, emptyValueErrors df, heq, hmem⟩
  · intro df b errs h
    have hb := validate_ok_pair df b errs h
    subst hb
    simp [List.isEmpty_eq_true]

theorem claim_C3_validator_completeness_witness :
    (∃ missing rest, validate_company_data dfNoEmail
        = .ok (false, ("Missing required columns: "
            ++ String.intercalate ", " missing) :: rest)
      ∧ "Email" ∈ missing)
    ∧ validate_company_data dfGood = .ok (true, [])
    ∧ (true = true ↔ ([] : List String) = []) := by
  refine ⟨?_, ?_, ?_⟩
  · exact claim_C3_validator_completeness.1 dfNoEmail (by decide)
  · exact claim_C3_validator_completeness.2.1 dfGood (by decide) (by decide) (by decide)
  · exact claim_C3_validator_completeness.2.2 dfGood true []
      (claim_C3_validator_completeness.2.1 dfGood (by decide) (by decide) (by decide))

/-- Counterexample to claim C4 as stated: an empty-*string* cell is not
flagged — pandas `isna` is false on `""`, so a dataset whose Company Name
column holds `""` (with well-formed emails) validates to `(true, [])`, with
no error naming the column. -/
theorem claim_C4_counterexample :
    dfEmptyCell.col "Company Name" = [Cell.str ""]
    ∧ validate_company_data dfEmptyCell = .ok (true, []) := by
  exact ⟨rfl, rfl⟩

/-- Claim C4 (amended): for every required column present in the dataset
with at least one *missing/null* (`NaN`) cell, the validator emits exactly
one error naming that column and returns `ok = false` (provided the Email
column does not have a numeric dtype, in which case the validator raises
instead of returning).  Empty strings do not count as missing: `isna` is
false on `""`, so such cells produce no per-column error (an empty-string
Email cell is only caught by the format check). -/
theorem claim_C4_empty_values (df : DataFrame) (c : String)
    (hc : c ∈ requiredColumns) (hpresent : c ∈ df.columns)
    (hnan : (df.col c).any Cell.isNa = true)
    (hdtype : ¬(df.columns.contains "Email" = true
        ∧ numericDtype (df.col "Email") = true)) :
    ∃ errs, validate_company_data df = .ok (false, errs)
      ∧ errs.count ("Column '" ++ c ++ "' contains empty values") = 1 := by
  obtain ⟨tailErrs, hval, htail⟩ := validate_no_raise df hdtype
  have hpred : (df.columns.contains c && (df.col c).any Cell.isNa) = true := by
    rw [(contains_iff_mem df.columns c).mpr hpresent, hnan]
    rfl
  have hcount1 : (emptyValueErrors df).count ("Column '" ++ c ++ "' contains empty values") = 1 :=
    count_emptyValueErrors_one df c hc hpred
  have hcount_tail :
      tailErrs.count ("Column '" ++ c ++ "' contains empty values") = 0 := by
    rcases htail with rfl | rfl
    · rfl
    · exact count_invalidEmailErrors_zero df c
  have hcount : (missingColumnErrors df ++ emptyValueErrors df ++ tailErrs).count
      ("Column '" ++ c ++ "' contains empty values") = 1 := by
    rw [List.count_append, List.count_append,
        count_missingColumnErrors_zero df c, hcount1, hcount_tail]
  have hmem : ("Column '" ++ c ++ "' contains empty values")
      ∈ missingColumnErrors df ++ emptyValueErrors df ++ tailErrs := by
    by_contra hnm
    rw [List.count_eq_zero.mpr hnm] at hcount
    cases hcount
  have hisEmpty : (missingColumnErrors df ++ emptyValueErrors df ++ tailErrs).isEmpty = false := by
    simp only [List.isEmpty_eq_false]
    exact List.ne_nil_of_mem hmem
  refine ⟨missingColumnErrors df ++ emptyValueErrors df ++ tailErrs, ?_, hcount⟩
  rw [hval, hisEmpty]

theorem claim_C4_empty_values_witness :
    (dfNanCell.col "Company Name").any Cell.isNa = true
    ∧ ∃ errs, validate_company_data dfNanCell = .ok (false, errs)
        ∧ errs.count "Column 'Company Name' contains empty values" = 1 :=
  ⟨by decide, claim_C4_empty_values dfNanCell "Company Name"
    (by decide) (by decide) (by decide) (by decide)⟩

/-- Claim C8 is broken by the code (the spec's "never raises for malformed
data" is clearly the intent): when the Email column has a numeric dtype
(e.g. every email was parsed as a number), `df['Email'].str.match` raises
`AttributeError` instead of producing a validation result, so
`validate_company_data` does not return an `(ok, errors)` pair. -/
theorem claim_C8_validator_raises_on_numeric_email :
    validate_company_data dfNumericEmail
      = .error "AttributeError: Can only use .str accessor with string values!"
    ∧ numericDtype (dfNumericEmail.col "Email") = true
    ∧ dfNumericEmail.col "Email" = [Cell.num 12345] := by
  exact ⟨rfl, rfl, rfl⟩

/-- Claim C10: the validator does not enforce non-emptiness — a dataset with
the three required columns and zero rows validates to `(true, [])`; running
a campaign over the empty dataset produces an empty trace, an empty result
log and the summary `{total := 0, successful := 0, failed := 0}`. -/
theorem claim_C10_empty_dataset_accepted :
    (∀ df : DataFrame, (∀ c ∈ requiredColumns, c ∈ df.columns) →
        (∀ c, df.col c = []) → validate_company_data df = .ok (true, []))
    ∧ (∀ ctx : RunCtx, run_campaign ctx [] = []
        ∧ get_campaign_summary (campaign_results (run_campaign ctx [])) =
            { total := 0, successful := 0, failed := 0 }) := by
  constructor
  · intro df hcols hzero
    apply validate_all_good df hcols
    · intro c _ cell hcell
      rw [hzero c] at hcell
      cases hcell
    · intro cell hcell
      rw [hzero "Email"] at hcell
      cases hcell
  · intro ctx
    exact ⟨rfl, rfl⟩

theorem claim_C10_empty_dataset_accepted_witness :
    validate_company_data dfEmptyRows = .ok (true, [])
    ∧ run_campaign ctxManualReject [] = []
    ∧ get_campaign_summary (campaign_results (run_campaign ctxManualReject [])) =
        { total := 0, successful := 0, failed := 0 } :=
  ⟨claim_C10_empty_dataset_accepted.1 dfEmptyRows (by decide) (fun _ => rfl),
   (claim_C10_empty_dataset_accepted.2 ctxManualReject).1,
   (claim_C10_empty_dataset_accepted.2 ctxManualReject).2⟩

/-- Counterexample to claim C2 as stated: subject resolution replaces only
`[Company Name]` and `[Recruiter Name]` — the legacy tokens survive, so the
subject template `"[COMPANY]"` composes, for a benign recipient, to a
subject that still contains the token `[COMPANY]`. -/
theorem claim_C2_counterexample :
    compose_subject sessionAINoPreview "[COMPANY]" "Acme" "Jane" = "[COMPANY]"
    ∧ (Tok.text Tok.companyCaps).data <:+:
        (compose_subject sessionAINoPreview "[COMPANY]" "Acme" "Jane").data := by
  refine ⟨by decide, ?_⟩
  exact ⟨[], [], by decide⟩

/-- Claim C2 (amended): body composition (templated mode and override mode)
replaces all four recognized tokens, while subject resolution (override and
template paths) replaces only `[Company Name]` and `[Recruiter Name]`.
Provided the recipient's organization and contact names hold no `[`
character and the template/override text is assembled from placeholder
tokens and `[`-free literal text — substituted text can otherwise recombine
into new token occurrences, since `str.replace` does not rescan — the
composed body contains zero occurrences of any of the four tokens, and the
composed subject, when its template draws only on the two tokens it
replaces, contains zero occurrences of any token. -/
theorem claim_C2_substitution_totality (segs : List Seg) (c r : String)
    (hc : '[' ∉ c.data) (hr : '[' ∉ r.data) (hl : litsBracketFree segs) :
    (∀ (ss : SessionState) (g : GeminiAI),
        ss.personalization_mode.getD AI_MODE ≠ AI_MODE →
        ∀ t : Tok, ¬ (Tok.text t).data <:+:
          (compose_body ss g (renderSegs segs) c r).data)
    ∧ (∀ (ss : SessionState) (g : GeminiAI) (template : String),
        ss.personalization_mode.getD AI_MODE = AI_MODE →
        ss.preview_email_content = some (renderSegs segs) →
        ∀ t : Tok, ¬ (Tok.text t).data <:+: (compose_body ss g template c r).data)
    ∧ ((∀ t, Seg.tok t ∈ segs → t = Tok.companyName ∨ t = Tok.recruiterName) →
        (∀ (ss : SessionState) (st : String),
          ss.preview_email_subject = some (renderSegs segs) →
          ∀ t : Tok, ¬ (Tok.text t).data <:+: (compose_subject ss st c r).data)
        ∧ (∀ ss : SessionState,
          ss.preview_email_subject = none →
          ∀ t : Tok, ¬ (Tok.text t).data <:+:
            (compose_subject ss (renderSegs segs) c r).data)) := by
  refine ⟨?_, ?_, ?_⟩
  · intro ss g hmode t
    rw [compose_body_manual ss g (renderSegs segs) c r hmode]
    exact replace_placeholders_no_token segs c r hc hr hl t
  · intro ss g template hmode hov t
    rw [compose_body_override ss g template c r (renderSegs segs) hmode hov]
    exact replace_placeholders_no_token segs c r hc hr hl t
  · intro htok
    constructor
    · intro ss st hov t
      rw [compose_subject_override ss st c r (renderSegs segs) hov]
      exact subject_substitution_no_token segs c r hc hr hl htok t
    · intro ss hov t
      rw [compose_subject_template ss (renderSegs segs) c r hov]
      exact subject_substitution_no_token segs c r hc hr hl htok t

theorem claim_C2_substitution_totality_witness :
    renderSegs segsBody = "Hi [Recruiter Name] at [Company Name] / [COMPANY][RECRUITER]"
    ∧ (∀ t : Tok, ¬ (Tok.text t).data <:+:
        (compose_body sessionManual geminiOff (renderSegs segsBody) "Acme" "Jane").data)
    ∧ (∀ t : Tok, ¬ (Tok.text t).data <:+:
        (compose_subject sessionAINoPreview (renderSegs segsSubject) "Acme" "Jane").data) := by
  have hlB : litsBracketFree segsBody := by
    intro s hs
    simp only [segsBody, List.mem_cons, List.not_mem_nil, or_false] at hs
    rcases hs with h | h | h | h | h | h | h <;> first
      | (cases h; decide)
      | cases h
  have hlS : litsBracketFree segsSubject := by
    intro s hs
    simp only [segsSubject, List.mem_cons, List.not_mem_nil, or_false] at hs
    rcases hs with h | h <;> first
      | (cases h; decide)
      | cases h
  have htokS : ∀ t, Seg.tok t ∈ segsSubject → t = Tok.companyName ∨ t = Tok.recruiterName := by
    intro t ht
    simp only [segsSubject, List.mem_cons, List.not_mem_nil, or_false] at ht
    rcases ht with h | h
    · cases h
    · cases h
      exact Or.inl rfl
  refine ⟨by decide, ?_, ?_⟩
  · exact (claim_C2_substitution_totality segsBody "Acme" "Jane"
      (by decide) (by decide) hlB).1 sessionManual geminiOff (by decide)
  · exact ((claim_C2_substitution_totality segsSubject "Acme" "Jane"
      (by decide) (by decide) hlS).2.2 htokS).2 sessionAINoPreview rfl
